import Mathlib

/-!
Shallow embedding of `pyads.py`, a command-line client for the ADS
bibliographic database.  Python strings are modelled as `List Char`,
Python values appearing in the parsed-argument namespace as `PyVal`,
and Python dictionaries as ordered association lists with Python's
`dict.update` semantics.  Functions that can raise return `Option`.
-/

/-- Convert a Lean string literal to the `List Char` representation used
for Python strings throughout this development. -/
def str (s : String) : List Char := s.toList

/-- A Python value as it can appear in the argparse namespace or in the
query dictionary: `None`, a string, an integer, or a boolean. -/
inductive PyVal where
  | none : PyVal
  | str : List Char → PyVal
  | int : Int → PyVal
  | bool : Bool → PyVal
deriving DecidableEq, Repr

/-- Python truthiness of a `PyVal` (`bool(v)`): `None` is falsy, a string
is truthy iff non-empty, an int iff non-zero, a bool is itself. -/
def pyTruthy : PyVal → Bool
  | PyVal.none => false
  | PyVal.str s => !s.isEmpty
  | PyVal.int n => n != 0
  | PyVal.bool b => b

/-- `str(x)` for an optional Python string: `None` prints as `"None"`. -/
def pyStrOfOpt (v : Option (List Char)) : List Char :=
  match v with
  | Option.none => str "None"
  | Option.some s => s

/-- `"%-Ns" % s`: left-justify `s` in a field of minimum width `n`
(pad with spaces on the right; longer strings are not cut). -/
def pyPad (n : Nat) (s : List Char) : List Char :=
  s ++ List.replicate (n - s.length) ' '

/-- Python slice `s[:k]` for an `Int` index `k`: a non-negative `k`
takes the first `k` characters, a negative `k` drops the last `|k|`. -/
def pySliceTo (s : List Char) (k : Int) : List Char :=
  if k < 0 then s.take (s.length - k.natAbs) else s.take k.toNat

/-- The parsed command-line arguments (`ARGS`): the query options with
their argparse types (`nargs='?'` makes each of them possibly `None`;
`--year`'s default is the integer current year while a user-supplied
value is a string, hence `PyVal`), the mutually exclusive output flags,
and `--debug`. -/
structure Args where
  author : Option (List Char)
  bibstem : Option (List Char)
  bibcode : Option (List Char)
  full : Option (List Char)
  rows : Option Int
  sort : Option (List Char)
  year : PyVal
  print_row : Bool
  print_abstract : Bool
  print_bibtex : Bool
  print_url_abs : Bool
  print_url_pdf : Bool
  debug : Bool

/-- Lift an optional Python string field of the namespace to `PyVal`. -/
def pyOfOptStr (v : Option (List Char)) : PyVal :=
  match v with
  | Option.none => PyVal.none
  | Option.some s => PyVal.str s

/-- Lift an optional Python int field of the namespace to `PyVal`. -/
def pyOfOptInt (v : Option Int) : PyVal :=
  match v with
  | Option.none => PyVal.none
  | Option.some n => PyVal.int n

/-- `ARGS.__dict__.items()`: the argparse namespace as an ordered list of
(attribute name, value) pairs. -/
def argsDict (a : Args) : List (String × PyVal) :=
  [("author", pyOfOptStr a.author),
   ("bibstem", pyOfOptStr a.bibstem),
   ("bibcode", pyOfOptStr a.bibcode),
   ("full", pyOfOptStr a.full),
   ("rows", pyOfOptInt a.rows),
   ("sort", pyOfOptStr a.sort),
   ("year", a.year),
   ("print_row", PyVal.bool a.print_row),
   ("print_abstract", PyVal.bool a.print_abstract),
   ("print_bibtex", PyVal.bool a.print_bibtex),
   ("print_url_abs", PyVal.bool a.print_url_abs),
   ("print_url_pdf", PyVal.bool a.print_url_pdf),
   ("debug", PyVal.bool a.debug)]

/-- `VALID_FIELDS`: the allow-list of query option names. -/
def VALID_FIELDS : List String :=
  ["author", "bibstem", "bibcode", "full", "rows", "sort", "year"]

/-- The dict comprehension
`{k: v for k, v in ARGS.__dict__.items() if v and k in VALID_FIELDS}`. -/
def filteredArgs (a : Args) : List (String × PyVal) :=
  (argsDict a).filter (fun kv => pyTruthy kv.2 && decide (kv.1 ∈ VALID_FIELDS))

/-- Python `d[k] = v` on an ordered dictionary: an existing key keeps its
position and gets the new value, a fresh key is appended at the end. -/
def dictSet (d : List (String × PyVal)) (k : String) (v : PyVal) :
    List (String × PyVal) :=
  if d.any (fun kv => kv.1 = k) then
    d.map (fun kv => if kv.1 = k then (k, v) else kv)
  else d ++ [(k, v)]

/-- Python `d.update(new)`: set every key of `new` into `d`, in order. -/
def dictUpdate (d new : List (String × PyVal)) : List (String × PyVal) :=
  new.foldl (fun acc kv => dictSet acc kv.1 kv.2) d

/-- Python `d.get(k)` on the ordered-dictionary model. -/
def dictLookup (d : List (String × PyVal)) (k : String) : Option PyVal :=
  match d with
  | [] => Option.none
  | kv :: rest => if kv.1 = k then Option.some kv.2 else dictLookup rest k

/-- `QUERY_DICT`: starts as `{"database": "astronomy"}` and is updated
with the filtered parsed arguments. -/
def QUERY_DICT (a : Args) : List (String × PyVal) :=
  dictUpdate [("database", PyVal.str (str "astronomy"))] (filteredArgs a)

/-- A result record ("paper") returned by the external client, exposing
the retrieved fields.  `bibcode`, `abstract` and `doi` may be `None`;
`title` is a Python list of strings. -/
structure Paper where
  abstract : Option (List Char)
  bibcode : Option (List Char)
  doi : Option (List Char)
  first_author : List Char
  title : List (List Char)
  year : List Char

/-- `func_trunc` from `print_row`: truncate a string to `limit`
characters followed by an ellipsis
(`string if len(string) < limit else string[:limit - 3] + "..."`). -/
def func_trunc (s : List Char) (limit : Int) : List Char :=
  if (s.length : Int) < limit then s else pySliceTo s (limit - 3) ++ str "..."

/-- The line produced by `print_row` once `paper.title[0]` has been read:
`"%-19s %-20s %-s" % (bibcode, func_trunc(first_author, 20),
func_trunc(title[0], 200))`. -/
def row_line (p : Paper) (t0 : List Char) : List Char :=
  pyPad 19 (pyStrOfOpt p.bibcode) ++ [' '] ++
  pyPad 20 (func_trunc p.first_author 20) ++ [' '] ++
  func_trunc t0 200

/-- `print_row`: the lines it prints, or `none` when `paper.title[0]`
raises (empty title list). -/
def print_row (p : Paper) : Option (List (List Char)) :=
  (p.title.get? 0).map (fun t0 => [row_line p t0])

/-- `print_abstract`: prints `paper.abstract` (Python prints `None` as
the string `"None"`). -/
def print_abstract (p : Paper) : Option (List (List Char)) :=
  Option.some [pyStrOfOpt p.abstract]

/-- `print_bibtex`: prints the result of the external export call
`ads.ExportQuery(paper.bibcode)()`, modelled by the parameter
`exportQ`. -/
def print_bibtex (exportQ : Option (List Char) → List Char) (p : Paper) :
    Option (List (List Char)) :=
  Option.some [exportQ p.bibcode]

/-- The lines printed by `print_url_abs`: nothing when the bibcode is
`None`, otherwise the abstract-page URL. -/
def url_abs_lines (p : Paper) : List (List Char) :=
  match p.bibcode with
  | Option.none => []
  | Option.some b => [str "https://ui.adsabs.harvard.edu/abs/" ++ b ++ str "/abstract"]

/-- `print_url_abs` as a formatter (it cannot raise). -/
def print_url_abs (p : Paper) : Option (List (List Char)) :=
  Option.some (url_abs_lines p)

/-- The lines printed by `print_url_pdf`: nothing when the bibcode is
`None`, otherwise the link-gateway URL with a `PUB_PDF` suffix when a
DOI is present and `EPRINT_PDF` otherwise. -/
def url_pdf_lines (p : Paper) : List (List Char) :=
  match p.bibcode with
  | Option.none => []
  | Option.some b =>
      [str "https://ui.adsabs.harvard.edu/link_gateway/" ++ b ++ str "/" ++
       (if p.doi.isSome then str "PUB" else str "EPRINT") ++ str "_PDF"]

/-- `print_url_pdf` as a formatter (it cannot raise). -/
def print_url_pdf (p : Paper) : Option (List (List Char)) :=
  Option.some (url_pdf_lines p)

/-- The dispatch table of `main`'s inner loop, in source order:
`[(ARGS.print_row, print_row), (ARGS.print_abstract, print_abstract),
(ARGS.print_bibtex, print_bibtex), (ARGS.print_url_abs, print_url_abs),
(ARGS.print_url_pdf, print_url_pdf)]`. -/
def output_table (a : Args) (exportQ : Option (List Char) → List Char) :
    List (Bool × (Paper → Option (List (List Char)))) :=
  [(a.print_row, print_row),
   (a.print_abstract, print_abstract),
   (a.print_bibtex, print_bibtex exportQ),
   (a.print_url_abs, print_url_abs),
   (a.print_url_pdf, print_url_pdf)]

/-- `main`'s inner loop for one paper: run each table entry in order,
invoking the formatter when its flag is set; a raising formatter aborts
the whole iteration (`none`). -/
def run_paper (a : Args) (exportQ : Option (List Char) → List Char)
    (p : Paper) : Option (List (List Char)) :=
  (output_table a exportQ).foldlM
    (fun acc cf => if cf.1 then (cf.2 p).map (fun ls => acc ++ ls) else Option.some acc)
    []

/-- Python `int(s)` on a string: strip spaces, allow one optional sign,
then require at least one digit; `none` models a `ValueError`. -/
def pyIntOfStr (l : List Char) : Option Int :=
  let t := ((l.dropWhile (fun c => c = ' ')).reverse.dropWhile (fun c => c = ' ')).reverse
  let digitsVal : List Char → Int :=
    fun d => (d.foldl (fun acc c => acc * 10 + (c.toNat - 48)) 0 : Nat)
  let core : List Char → Int → Option Int :=
    fun d sign =>
      if d ≠ [] ∧ d.all Char.isDigit then Option.some (sign * digitsVal d)
      else Option.none
  match t with
  | '-' :: rest => core rest (-1)
  | '+' :: rest => core rest 1
  | rest => core rest 1

/-- The `try: time_reset = int(...) except ValueError: time_reset = 0`
step of `main` applied to the rate-limit trailer's reset value. -/
def time_reset (s : List Char) : Int :=
  (pyIntOfStr s).getD 0

/-- The trailer line `"Reset (UTC): %s" % time.ctime(time_reset)`, with
the external `time.ctime` passed in as `ctime`. -/
def reset_line (ctime : Int → List Char) (s : List Char) : List Char :=
  str "Reset (UTC): " ++ ctime (time_reset s)

/-- An invocation that supplies only `--print_row` and leaves every query
option at its argparse default (`rows=10`, `sort="citation_count desc"`,
`year=` the current year, here 2020). -/
def defaultArgs : Args :=
  { author := Option.none, bibstem := Option.none, bibcode := Option.none,
    full := Option.none, rows := Option.some 10,
    sort := Option.some (str "citation_count desc"),
    year := PyVal.int 2020,
    print_row := true, print_abstract := false, print_bibtex := false,
    print_url_abs := false, print_url_pdf := false, debug := false }

/-- `defaultArgs` with `--author "doe, j"` supplied as well. -/
def authorArgs : Args :=
  { defaultArgs with author := Option.some (str "doe, j") }

/-- `defaultArgs` with `--print_abstract` also enabled (for exercising
the dispatch loop on several formatters at once). -/
def rowAbsArgs : Args :=
  { defaultArgs with print_abstract := true }

/-- A concrete result record with a bibcode, no DOI, and year 1999. -/
def samplePaper : Paper :=
  { abstract := Option.none, bibcode := Option.some (str "2020ApJ...1A"),
    doi := Option.none, first_author := str "Doe, J.",
    title := [str "A fine title"], year := str "1999" }

/-- A concrete result record whose bibcode is `None`. -/
def noBibPaper : Paper :=
  { abstract := Option.none, bibcode := Option.none, doi := Option.none,
    first_author := str "Doe, J.", title := [str "T"], year := str "2001" }

/-- A concrete result record with both a bibcode and a DOI. -/
def doiPaper : Paper :=
  { abstract := Option.none, bibcode := Option.some (str "2020ApJ...1A"),
    doi := Option.some (str "10.1000/x182"), first_author := str "Doe, J.",
    title := [str "T"], year := str "2020" }

/-- A concrete stand-in for the external `time.ctime`. -/
def ctimeEpoch : Int → List Char :=
  fun _ => str "Thu Jan  1 00:00:00 1970"

/-- A concrete stand-in for the external bibtex export call. -/
def exportConst : Option (List Char) → List Char :=
  fun _ => str "@ARTICLE"

/-- A sample string of 26 characters, longer than the author limit 20. -/
def sampleLong : List Char := str "abcdefghijklmnopqrstuvwxyz"

/-- Overwriting key `k2` in place leaves lookups of a different key
unchanged. -/
theorem dictLookup_map_set_ne (d : List (String × PyVal)) (k2 k : String)
    (v : PyVal) (h : k2 ≠ k) :
    dictLookup (d.map (fun kv => if kv.1 = k2 then (k2, v) else kv)) k =
      dictLookup d k := by
  induction d with
  | nil => rfl
  | cons kv rest ih =>
      by_cases hk : kv.1 = k2
      · simp [dictLookup, hk, h, ih]
      · simp [dictLookup, hk, ih]

/-- Appending a binding for key `k2` leaves lookups of a different key
unchanged. -/
theorem dictLookup_append_single_ne (d : List (String × PyVal))
    (k2 k : String) (v : PyVal) (h : k2 ≠ k) :
    dictLookup (d ++ [(k2, v)]) k = dictLookup d k := by
  induction d with
  | nil => simp [dictLookup, h]
  | cons kv rest ih => by_cases hk : kv.1 = k <;> simp [dictLookup, hk, ih]

/-- `d[k2] = v` leaves lookups of a different key unchanged. -/
theorem dictLookup_dictSet_ne (d : List (String × PyVal)) (k2 : String)
    (v : PyVal) (k : String) (h : k2 ≠ k) :
    dictLookup (dictSet d k2 v) k = dictLookup d k := by
  rw [dictSet]
  split
  · exact dictLookup_map_set_ne d k2 k v h
  · exact dictLookup_append_single_ne d k2 k v h

/-- `d.update(new)` leaves lookups of a key absent from `new`
unchanged. -/
theorem dictLookup_dictUpdate_not_mem (new : List (String × PyVal))
    (d : List (String × PyVal)) (k : String)
    (h : ∀ kv ∈ new, kv.1 ≠ k) :
    dictLookup (dictUpdate d new) k = dictLookup d k := by
  induction new generalizing d with
  | nil => rfl
  | cons kv rest ih =>
      have step : dictUpdate d (kv :: rest) =
          dictUpdate (dictSet d kv.1 kv.2) rest := rfl
      rw [step, ih _ (fun x hx => h x (List.mem_cons_of_mem _ hx)),
        dictLookup_dictSet_ne _ _ _ _ (h kv (List.mem_cons_self _ _))]

/-- Every binding surviving the filter has its key in the allow-list. -/
theorem filteredArgs_key_valid (a : Args) (kv : String × PyVal)
    (h : kv ∈ filteredArgs a) : kv.1 ∈ VALID_FIELDS := by
  have h2 := (List.mem_filter.mp h).2
  exact of_decide_eq_true ((Bool.and_eq_true _ _).mp h2).2

/-- Claim C10: for every command-line invocation, the query dictionary
passed to the external search call maps `"database"` to `"astronomy"`;
the key is added unconditionally and is never overwritten by the
filtered arguments, since `"database"` is not in the allow-list. -/
theorem query_dict_database_astronomy (a : Args) :
    dictLookup (QUERY_DICT a) "database" =
      Option.some (PyVal.str (str "astronomy")) := by
  rw [QUERY_DICT, dictLookup_dictUpdate_not_mem]
  · rfl
  · intro kv hkv hdb
    have hmem := filteredArgs_key_valid a kv hkv
    rw [hdb] at hmem
    revert hmem
    decide

/-- Claim C3: every binding of the mapping built from the parsed
arguments has its key in the fixed allow-list `VALID_FIELDS` and a
truthy value; nothing else survives the filter. -/
theorem filtered_keys_allowlisted_truthy (a : Args) (k : String) (v : PyVal)
    (h : (k, v) ∈ filteredArgs a) :
    k ∈ VALID_FIELDS ∧ pyTruthy v = true := by
  have h2 := (List.mem_filter.mp h).2
  have hand := (Bool.and_eq_true _ _).mp h2
  exact ⟨of_decide_eq_true hand.2, hand.1⟩

/-- Witness for `filtered_keys_allowlisted_truthy` at a concrete
invocation supplying `--author "doe, j"`. -/
theorem filtered_keys_allowlisted_truthy_witness :
    ("author", PyVal.str (str "doe, j")) ∈ filteredArgs authorArgs ∧
    ("author" ∈ VALID_FIELDS ∧ pyTruthy (PyVal.str (str "doe, j")) = true) :=
  ⟨by decide,
   filtered_keys_allowlisted_truthy authorArgs "author"
     (PyVal.str (str "doe, j")) (by decide)⟩

/-- Claim C2, counterexample: an invocation that leaves `rows`, `sort`
and `year` at their defaults does NOT drop those keys — all three appear
in the dictionary passed to the client, because the filter keeps every
truthy value, default or not. -/
theorem query_dict_default_keeps_defaults :
    ¬ (dictLookup (QUERY_DICT defaultArgs) "rows" = Option.none ∧
       dictLookup (QUERY_DICT defaultArgs) "sort" = Option.none ∧
       dictLookup (QUERY_DICT defaultArgs) "year" = Option.none) ∧
    dictLookup (QUERY_DICT defaultArgs) "rows" = Option.some (PyVal.int 10) ∧
    dictLookup (QUERY_DICT defaultArgs) "sort" =
      Option.some (PyVal.str (str "citation_count desc")) ∧
    dictLookup (QUERY_DICT defaultArgs) "year" =
      Option.some (PyVal.int 2020) := by
  decide

/-- Claim C2, amended: the mapping passed to the external search call
retains exactly the allow-listed entries whose value is truthy; since
the defaults of `rows`, `sort` and `year` are truthy, an all-default
invocation passes all three of those keys to the client. -/
theorem filtered_retains_truthy_allowlisted :
    (∀ (a : Args) (k : String) (v : PyVal),
      (k, v) ∈ filteredArgs a ↔
        ((k, v) ∈ argsDict a ∧ pyTruthy v = true ∧ k ∈ VALID_FIELDS)) ∧
    dictLookup (QUERY_DICT defaultArgs) "rows" = Option.some (PyVal.int 10) ∧
    dictLookup (QUERY_DICT defaultArgs) "sort" =
      Option.some (PyVal.str (str "citation_count desc")) ∧
    dictLookup (QUERY_DICT defaultArgs) "year" =
      Option.some (PyVal.int 2020) := by
  refine ⟨?_, by decide, by decide, by decide⟩
  intro a k v
  rw [filteredArgs, List.mem_filter]
  simp [and_assoc]

/-- Claim C4: with a limit of at least 3 (the code uses 20 and 200), a
string shorter than the limit is returned unchanged, and a string at or
above the limit becomes its first `limit - 3` characters followed by the
three-character ellipsis, for a total length of exactly `limit`. -/
theorem func_trunc_spec (s : List Char) (limit : Int) (h3 : 3 ≤ limit) :
    ((s.length : Int) < limit → func_trunc s limit = s) ∧
    (limit ≤ (s.length : Int) →
      func_trunc s limit = s.take (limit - 3).toNat ++ str "..." ∧
      ((func_trunc s limit).length : Int) = limit) := by
  constructor
  · intro h
    simp [func_trunc, h]
  · intro h
    have hnl : ¬ ((s.length : Int) < limit) := not_lt.mpr h
    have hk : ¬ ((limit - 3 : Int) < 0) := by omega
    have heq : func_trunc s limit = s.take (limit - 3).toNat ++ str "..." := by
      simp [func_trunc, hnl, pySliceTo, hk]
    refine ⟨heq, ?_⟩
    rw [heq, List.length_append, List.length_take]
    have hdots : (str "...").length = 3 := rfl
    rw [hdots]
    have hmin : min (limit - 3).toNat s.length = (limit - 3).toNat := by omega
    rw [hmin]
    omega

/-- Witness for `func_trunc_spec` at the author limit 20 on a 26-character
string. -/
theorem func_trunc_spec_witness :
    (3 : Int) ≤ 20 ∧
    (((sampleLong.length : Int) < 20 → func_trunc sampleLong 20 = sampleLong) ∧
     ((20 : Int) ≤ (sampleLong.length : Int) →
       func_trunc sampleLong 20 =
         sampleLong.take ((20 : Int) - 3).toNat ++ str "..." ∧
       ((func_trunc sampleLong 20).length : Int) = 20)) :=
  ⟨by decide, func_trunc_spec sampleLong 20 (by decide)⟩

/-- Claim C5: when the rate-limit reset value cannot be parsed as an
integer, the reset time falls back to 0 (epoch zero) and the trailer
formats that epoch-zero time, instead of a `ValueError` propagating. -/
theorem reset_fallback_zero (ctime : Int → List Char) (s : List Char)
    (h : pyIntOfStr s = Option.none) :
    time_reset s = 0 ∧ reset_line ctime s = str "Reset (UTC): " ++ ctime 0 := by
  have h0 : time_reset s = 0 := by rw [time_reset, h]; rfl
  exact ⟨h0, by rw [reset_line, h0]⟩

/-- Witness for `reset_fallback_zero` on the non-numeric value "soon". -/
theorem reset_fallback_zero_witness :
    pyIntOfStr (str "soon") = Option.none ∧
    (time_reset (str "soon") = 0 ∧
     reset_line ctimeEpoch (str "soon") = str "Reset (UTC): " ++ ctimeEpoch 0) :=
  ⟨by decide, reset_fallback_zero ctimeEpoch (str "soon") (by decide)⟩

/-- Claim C6: on a record whose bibcode is `None`, both URL formatters
return normally (no exception) and print nothing. -/
theorem url_formatters_skip_missing_bibcode (p : Paper)
    (h : p.bibcode = Option.none) :
    print_url_abs p = Option.some [] ∧ print_url_pdf p = Option.some [] := by
  simp [print_url_abs, print_url_pdf, url_abs_lines, url_pdf_lines, h]

/-- Witness for `url_formatters_skip_missing_bibcode` on a concrete
record without a bibcode. -/
theorem url_formatters_skip_missing_bibcode_witness :
    noBibPaper.bibcode = Option.none ∧
    (print_url_abs noBibPaper = Option.some [] ∧
     print_url_pdf noBibPaper = Option.some []) :=
  ⟨rfl, url_formatters_skip_missing_bibcode noBibPaper rfl⟩

/-- Claim C7: on a record with a bibcode, the PDF link formatter appends
`PUB_PDF` to the link-gateway URL when a DOI is present and `EPRINT_PDF`
when the DOI is absent. -/
theorem url_pdf_suffix_doi (p : Paper) (b : List Char)
    (h : p.bibcode = Option.some b) :
    (p.doi.isSome = true →
      print_url_pdf p = Option.some
        [str "https://ui.adsabs.harvard.edu/link_gateway/" ++ b ++
         str "/PUB_PDF"]) ∧
    (p.doi = Option.none →
      print_url_pdf p = Option.some
        [str "https://ui.adsabs.harvard.edu/link_gateway/" ++ b ++
         str "/EPRINT_PDF"]) := by
  have hpub : str "/" ++ (str "PUB" ++ str "_PDF") = str "/PUB_PDF" := by decide
  have hepr : str "/" ++ (str "EPRINT" ++ str "_PDF") = str "/EPRINT_PDF" := by
    decide
  constructor
  · intro hd
    simp [print_url_pdf, url_pdf_lines, h, hd, List.append_assoc, hpub]
  · intro hd
    simp [print_url_pdf, url_pdf_lines, h, hd, List.append_assoc, hepr]

/-- Witness for `url_pdf_suffix_doi` on a concrete record holding both a
bibcode and a DOI. -/
theorem url_pdf_suffix_doi_witness :
    doiPaper.bibcode = Option.some (str "2020ApJ...1A") ∧
    ((doiPaper.doi.isSome = true →
       print_url_pdf doiPaper = Option.some
         [str "https://ui.adsabs.harvard.edu/link_gateway/" ++
          str "2020ApJ...1A" ++ str "/PUB_PDF"]) ∧
     (doiPaper.doi = Option.none →
       print_url_pdf doiPaper = Option.some
         [str "https://ui.adsabs.harvard.edu/link_gateway/" ++
          str "2020ApJ...1A" ++ str "/EPRINT_PDF"])) :=
  ⟨rfl, url_pdf_suffix_doi doiPaper (str "2020ApJ...1A") rfl⟩

/-- Claim C8: the abstract URL formatter on a record with bibcode
`"2020ApJ...1A"` prints exactly
`https://ui.adsabs.harvard.edu/abs/2020ApJ...1A/abstract`. -/
theorem url_abs_concrete :
    print_url_abs samplePaper =
      Option.some [str "https://ui.adsabs.harvard.edu/abs/2020ApJ...1A/abstract"] := by
  decide

/-- Claim C1: on a concrete record with bibcode `"2020ApJ...1A"`, first
author `"Doe, J."`, year `"1999"` and first title `"A fine title"`, the
row formatter prints the bibcode, truncated author and truncated title
in fixed-width columns but does NOT print the year anywhere, although
the `--print_row` help text and the claim say the row includes it. -/
theorem print_row_omits_year :
    print_row samplePaper =
      Option.some [str "2020ApJ...1A" ++ List.replicate 8 ' ' ++
        str "Doe, J." ++ List.replicate 14 ' ' ++ str "A fine title"] ∧
    ¬ (str "1999" <:+:
        (str "2020ApJ...1A" ++ List.replicate 8 ' ' ++ str "Doe, J." ++
         List.replicate 14 ' ' ++ str "A fine title")) := by
  decide

/-- Claim C9: for a record with a non-empty title list, the per-record
dispatch runs exactly the formatters whose flag is enabled, each once,
concatenated in the fixed priority order row, abstract, bibtex, url_abs,
url_pdf. -/
theorem dispatch_priority_order (a : Args)
    (exportQ : Option (List Char) → List Char) (p : Paper)
    (t0 : List Char) (ts : List (List Char)) (h : p.title = t0 :: ts) :
    run_paper a exportQ p = Option.some (
      (if a.print_row then [row_line p t0] else []) ++
      (if a.print_abstract then [pyStrOfOpt p.abstract] else []) ++
      (if a.print_bibtex then [exportQ p.bibcode] else []) ++
      (if a.print_url_abs then url_abs_lines p else []) ++
      (if a.print_url_pdf then url_pdf_lines p else [])) := by
  have hrow : print_row p = Option.some [row_line p t0] := by
    rw [print_row, h]
    rfl
  rw [run_paper, output_table]
  cases a.print_row <;> cases a.print_abstract <;> cases a.print_bibtex <;>
    cases a.print_url_abs <;> cases a.print_url_pdf <;>
  simp [List.foldlM, hrow, print_abstract, print_bibtex, print_url_abs,
    print_url_pdf]

/-- Witness for `dispatch_priority_order` at a concrete invocation with
`--print_row` and `--print_abstract` enabled. -/
theorem dispatch_priority_order_witness :
    samplePaper.title = str "A fine title" :: [] ∧
    run_paper rowAbsArgs exportConst samplePaper = Option.some (
      (if rowAbsArgs.print_row then
        [row_line samplePaper (str "A fine title")] else []) ++
      (if rowAbsArgs.print_abstract then
        [pyStrOfOpt samplePaper.abstract] else []) ++
      (if rowAbsArgs.print_bibtex then
        [exportConst samplePaper.bibcode] else []) ++
      (if rowAbsArgs.print_url_abs then url_abs_lines samplePaper else []) ++
      (if rowAbsArgs.print_url_pdf then url_pdf_lines samplePaper else [])) :=
  ⟨rfl, dispatch_priority_order rowAbsArgs exportConst samplePaper
    (str "A fine title") [] rfl⟩
